import Mathlib

/-!
Shallow embedding of the conversation/inbox synchronization core of the
photo-sharing client: the `Messages` inbox component (conversation index,
unread counting, client-side search filter) and the `Chat` thread component
(thread loading, read-marking on snapshot, message sending), translated from
the source file holding both components.

Persisted records are modelled as plain structures; stores are lists of
records; backend writes become explicit operation values applied to stores;
server-assigned timestamps and ids become explicit parameters of the apply
functions; a fallible point-in-time read becomes a function into `Except`.
-/

/-- A persisted Message record: conversationId, senderId, receiverId, text,
read flag and server-assigned creation time. -/
structure Message where
  id : String
  conversationId : String
  senderId : String
  receiverId : String
  text : String
  read : Bool
  createdAt : Nat
deriving Repr, DecidableEq

/-- A persisted Conversation record: participants and rolling summary
(lastMessage, lastMessageTime). -/
structure Conversation where
  id : String
  participants : List String
  lastMessage : String
  lastMessageTime : Nat
deriving Repr, DecidableEq

/-- A persisted user profile record (the fields the messaging UI reads). -/
structure UserRecord where
  id : String
  username : String
  avatarUrl : String
deriving Repr, DecidableEq

/-- The other participant exposed by the Chat header (`otherUser` state). -/
structure OtherUser where
  id : String
  username : String
  avatarUrl : String
deriving Repr, DecidableEq

/-- A derived inbox entry as built by the Messages component for one
conversation (lines building the returned object literal). -/
structure InboxEntry where
  id : String
  participants : List String
  lastMessage : String
  lastMessageTime : Nat
  otherUserId : String
  otherUserName : String
  otherUserAvatar : String
  unreadCount : Nat
deriving Repr, DecidableEq

/-- `data.participants.find((id) => id !== user.uid)` — the other-participant
lookup shared by the Messages and Chat components. -/
def otherParticipant (actor : String) (conv : Conversation) : Option String :=
  conv.participants.find? (fun id => id != actor)

/-- The unread-count query of the Messages component: messages with
`conversationId == conv`, `receiverId == actor`, `read == false`; the count is
the size of the result set. -/
def unreadCount (msgs : List Message) (convId actor : String) : Nat :=
  (msgs.filter (fun m =>
    m.conversationId == convId && m.receiverId == actor && m.read == false)).length

/-- Point-in-time profile read `getDoc(doc(db, 'users', uid))`: `none` models
an absent document (`data()` returns undefined). -/
def lookupUser (users : List UserRecord) (uid : String) : Option UserRecord :=
  users.find? (fun u => u.id == uid)

/-- The successful profile read over a given user store (never rejects). -/
def okFetch (users : List UserRecord) : String → Except String (Option UserRecord) :=
  fun uid => Except.ok (lookupUser users uid)

/-- The object literal returned for one conversation by the Messages snapshot
callback: `userData?.username || 'Unknown'`, `userData?.avatarUrl || ''`,
`unreadSnapshot.size`. An empty username is falsy, hence the fallback. -/
def mkEntry (conv : Conversation) (ouid : String) (userData : Option UserRecord)
    (msgs : List Message) (actor : String) : InboxEntry :=
  { id := conv.id
    participants := conv.participants
    lastMessage := conv.lastMessage
    lastMessageTime := conv.lastMessageTime
    otherUserId := ouid
    otherUserName :=
      match userData with
      | some u => if u.username = "" then "Unknown" else u.username
      | none => "Unknown"
    otherUserAvatar :=
      match userData with
      | some u => u.avatarUrl
      | none => ""
    unreadCount := unreadCount msgs conv.id actor }

/-- The async per-conversation enrichment of the Messages snapshot callback.
It rejects when the other-participant lookup yields undefined (`doc()` throws
on an undefined path segment) or when the profile read rejects; otherwise it
resolves to the inbox entry. -/
def buildEntry (fetchProfile : String → Except String (Option UserRecord))
    (msgs : List Message) (actor : String) (conv : Conversation) :
    Except String InboxEntry :=
  match otherParticipant actor conv with
  | none => Except.error "invalid-argument"
  | some ouid =>
    match fetchProfile ouid with
    | Except.error e => Except.error e
    | Except.ok userData => Except.ok (mkEntry conv ouid userData msgs actor)

/-- `Promise.all(snapshot.docs.map(...))` of the Messages component: the join
resolves to the list of all entries, in snapshot order, when every
per-conversation enrichment resolves, and rejects as soon as any of them
rejects. -/
def processSnapshot (fetchProfile : String → Except String (Option UserRecord))
    (msgs : List Message) (actor : String) :
    List Conversation → Except String (List InboxEntry)
  | [] => Except.ok []
  | conv :: rest =>
    match buildEntry fetchProfile msgs actor conv with
    | Except.error e => Except.error e
    | Except.ok entry =>
      match processSnapshot fetchProfile msgs actor rest with
      | Except.error e => Except.error e
      | Except.ok l => Except.ok (entry :: l)

/-- Lowercasing as used by `toLowerCase()` in the search filter. -/
def toLowerStr (s : String) : String :=
  String.mk (s.data.map Char.toLower)

/-- `startsWithL h p` : the character list `h` starts with `p`. -/
def startsWithL : List Char → List Char → Bool
  | _, [] => true
  | [], _ :: _ => false
  | a :: as, b :: bs => a == b && startsWithL as bs

/-- `containsSub h p` : `p` occurs contiguously inside `h`, as
`String.prototype.includes` decides it. -/
def containsSub : List Char → List Char → Bool
  | [], p => startsWithL [] p
  | c :: t, p => startsWithL (c :: t) p || containsSub t p

/-- `a.includes(b)` on strings. -/
def includesStr (s pat : String) : Bool :=
  containsSub s.data pat.data

/-- The filter predicate of the Messages search box:
`conv.otherUserName.toLowerCase().includes(searchTerm.toLowerCase())`. -/
def matchesSearch (searchTerm : String) (conv : InboxEntry) : Bool :=
  includesStr (toLowerStr conv.otherUserName) (toLowerStr searchTerm)

/-- `filteredConversations` of the Messages component: a pure filter of the
already-resolved entries by the search term; it takes only the resolved list
and the search string and performs no store access. -/
def filteredConversations (conversations : List InboxEntry) (searchTerm : String) :
    List InboxEntry :=
  conversations.filter (matchesSearch searchTerm)

/-- The Chat loading state machine: `notFound` models the toast-and-redirect
branch, `ready` models `setLoading(false)` with the `otherUser` state as set
(or left null) by `loadConversation`. -/
inductive ChatState where
  | notFound
  | ready (otherUser : Option OtherUser)
deriving Repr, DecidableEq

/-- The `setOtherUser` value of the Chat component: set only when the profile
document exists (`userDoc.exists()`), with `userData.username || 'Unknown'`
and `userData.avatarUrl || ''`; when the document is absent no other user is
set and the state stays null. -/
def chatOtherUser (users : List UserRecord) (ouid : String) : Option OtherUser :=
  match lookupUser users ouid with
  | none => none
  | some u =>
    some { id := ouid
           username := if u.username = "" then "Unknown" else u.username
           avatarUrl := u.avatarUrl }

/-- `loadConversation` of the Chat component: a missing conversation document
yields the toast-and-redirect branch; otherwise the other participant is
resolved and their profile fetched, and loading ends (`setLoading(false)`)
whether or not the profile document exists. An undefined other-participant
lookup makes `doc()` throw, which the surrounding catch turns into
`setLoading(false)` with no other user set. -/
def loadConversation (convs : List Conversation) (users : List UserRecord)
    (actor convId : String) : ChatState :=
  match convs.find? (fun c => c.id == convId) with
  | none => ChatState.notFound
  | some conv =>
    match otherParticipant actor conv with
    | none => ChatState.ready none
    | some ouid => ChatState.ready (chatOtherUser users ouid)

/-- `unreadMessages` of the Chat messages-snapshot callback: messages of the
snapshot addressed to the actor and not yet read. -/
def unreadMessages (actor : String) (msgs : List Message) : List Message :=
  msgs.filter (fun m => m.receiverId == actor && !m.read)

/-- The read-marking loop of the Chat messages-snapshot callback: one
`updateDoc(..., { read: true })` per unread received message, identified by
message id. -/
def markReadOps (actor : String) (msgs : List Message) : List String :=
  (unreadMessages actor msgs).map (fun m => m.id)

/-- Effect of one `updateDoc(doc(db, 'messages', mid), { read: true })` on the
message store. -/
def setRead (msgs : List Message) (mid : String) : List Message :=
  msgs.map (fun m => if m.id == mid then { m with read := true } else m)

/-- Effect of the whole read-marking loop on the message store. -/
def applyMarkReads (store : List Message) (ops : List String) : List Message :=
  ops.foldl setRead store

/-- JS whitespace as stripped by `String.prototype.trim` (the characters that
occur in this codebase's inputs). -/
def isWS (c : Char) : Bool :=
  c == ' ' || c == '\t' || c == '\n' || c == '\r'

/-- `String.prototype.trim`: strip leading and trailing whitespace. -/
def trimStr (s : String) : String :=
  String.mk (((s.data.dropWhile isWS).reverse.dropWhile isWS).reverse)

/-- The backend writes `handleSendMessage` can issue: the `addDoc` on the
messages collection (id and `createdAt` are server-assigned) and the
`setDoc(..., \x7b merge: true \x7d)` on the conversation document with exactly
the fields `lastMessage` and `lastMessageTime`. -/
inductive WriteOp where
  | appendMessage (conversationId senderId receiverId text : String) (read : Bool)
  | upsertConversation (conversationId lastMessage : String)
deriving Repr, DecidableEq

/-- The message and conversation stores mutated by `handleSendMessage`. -/
structure Stores where
  messages : List Message
  conversations : List Conversation
deriving Repr, DecidableEq

/-- `handleSendMessage` of the Chat component, as the sequence of backend
writes it issues: nothing when the trimmed draft is empty or no other user is
resolved; otherwise the message append followed by the conversation summary
upsert, both carrying the trimmed text, the append with `read: false`. -/
def handleSendMessage (newMessage actor : String) (otherUser : Option OtherUser)
    (conversationId : String) : List WriteOp :=
  if trimStr newMessage = "" then []
  else
    match otherUser with
    | none => []
    | some ou =>
      [WriteOp.appendMessage conversationId actor ou.id (trimStr newMessage) false,
       WriteOp.upsertConversation conversationId (trimStr newMessage)]

/-- Effect of one write on the stores. `freshId` is the server-assigned
document id of an append and `now` the server timestamp. The merge upsert
overwrites only `lastMessage` and `lastMessageTime` on an existing
conversation and creates the document with just those fields when absent. -/
def applyWrite (freshId : String) (now : Nat) (st : Stores) : WriteOp → Stores
  | WriteOp.appendMessage cid s r t rd =>
    { st with messages := st.messages ++ [⟨freshId, cid, s, r, t, rd, now⟩] }
  | WriteOp.upsertConversation cid lm =>
    { st with conversations :=
        match st.conversations.find? (fun c => c.id == cid) with
        | some _ =>
          st.conversations.map (fun c =>
            if c.id == cid then { c with lastMessage := lm, lastMessageTime := now } else c)
        | none => st.conversations ++ [⟨cid, [], lm, now⟩] }

/-- Effect of a write sequence on the stores. -/
def applyWrites (freshId : String) (now : Nat) (st : Stores) (ops : List WriteOp) : Stores :=
  ops.foldl (applyWrite freshId now) st

/-- `handleSendMessage` with the draft state and fallible writes made
explicit: `ok1` is whether the `addDoc` resolves and `ok2` whether the
`setDoc` resolves. Returns the draft text after the call (`setNewMessage('')`
runs only after both awaits resolve; a rejection jumps to the catch, which
only shows a toast) together with the writes that executed successfully. -/
def sendWithDraft (newMessage actor : String) (otherUser : Option OtherUser)
    (conversationId : String) (ok1 ok2 : Bool) : String × List WriteOp :=
  if trimStr newMessage = "" then (newMessage, [])
  else
    match otherUser with
    | none => (newMessage, [])
    | some ou =>
      let w1 := WriteOp.appendMessage conversationId actor ou.id (trimStr newMessage) false
      let w2 := WriteOp.upsertConversation conversationId (trimStr newMessage)
      if ok1 then
        if ok2 then ("", [w1, w2])
        else (newMessage, [w1])
      else (newMessage, [])

/-- A backend profile read that rejects for one particular user id and
resolves for the others: a TransientBackendFailure hitting a single
per-entry lookup. -/
def badFetch : String → Except String (Option UserRecord) :=
  fun uid =>
    if uid = "u3" then Except.error "unavailable"
    else Except.ok (lookupUser [⟨"u2", "bob", ""⟩] uid)

/-! ## Helper lemmas -/

lemma unreadCount_eq_countP (msgs : List Message) (convId actor : String) :
    unreadCount msgs convId actor
      = msgs.countP (fun m =>
          decide (m.conversationId = convId ∧ m.receiverId = actor ∧ m.read = false)) := by
  rw [unreadCount, List.countP_eq_length_filter]
  congr 1
  apply List.filter_congr
  intro m _
  by_cases h1 : m.conversationId = convId <;>
    by_cases h2 : m.receiverId = actor <;>
    by_cases h3 : m.read = false <;>
    simp [h1, h2, h3]

lemma startsWithL_iff (p : List Char) : ∀ h : List Char,
    startsWithL h p = true ↔ ∃ r, h = p ++ r := by
  induction p with
  | nil =>
    intro h
    constructor
    · intro _; exact ⟨h, rfl⟩
    · intro _; cases h <;> rfl
  | cons b bs ih =>
    intro h
    cases h with
    | nil =>
      simp only [startsWithL]
      constructor
      · intro hfalse; cases hfalse
      · rintro ⟨r, hr⟩; cases hr
    | cons a as =>
      simp only [startsWithL, Bool.and_eq_true, beq_iff_eq, ih as]
      constructor
      · rintro ⟨rfl, r, rfl⟩; exact ⟨r, rfl⟩
      · rintro ⟨r, hr⟩
        injection hr with h1 h2
        exact ⟨h1, r, h2⟩

lemma containsSub_iff (p : List Char) : ∀ h : List Char,
    containsSub h p = true ↔ ∃ l r, h = l ++ (p ++ r) := by
  intro h
  induction h with
  | nil =>
    simp only [containsSub, startsWithL_iff]
    constructor
    · rintro ⟨r, hr⟩; exact ⟨[], r, hr⟩
    · rintro ⟨l, r, hr⟩
      have hl : l = [] ∧ (p ++ r) = [] := List.append_eq_nil.mp hr.symm
      exact ⟨r, by rw [← hl.2]⟩
  | cons c t ih =>
    simp only [containsSub, Bool.or_eq_true, startsWithL_iff, ih]
    constructor
    · rintro (⟨r, hr⟩ | ⟨l, r, hr⟩)
      · exact ⟨[], r, by simpa using hr⟩
      · exact ⟨c :: l, r, by simp [hr]⟩
    · rintro ⟨l, r, hr⟩
      cases l with
      | nil => exact Or.inl ⟨r, by simpa using hr⟩
      | cons x xs =>
        injection hr with h1 h2
        exact Or.inr ⟨xs, r, h2⟩

/-! ## Claim theorems -/

/-- Claim C1: for every actor and conversation, the unread count attached to
the conversation's inbox entry equals the number of Message records with this
conversation's id, the actor as receiver, and `read = false`, evaluated
against the message store passed to the count query. -/
theorem unread_count_matches_message_store (users : List UserRecord)
    (msgs : List Message) (actor : String) (conv : Conversation) (e : InboxEntry)
    (h : buildEntry (okFetch users) msgs actor conv = Except.ok e) :
    e.unreadCount
      = msgs.countP (fun m =>
          decide (m.conversationId = conv.id ∧ m.receiverId = actor ∧ m.read = false)) := by
  rw [buildEntry] at h
  cases hop : otherParticipant actor conv with
  | none => rw [hop] at h; cases h
  | some ouid =>
    rw [hop] at h
    simp only [okFetch] at h
    injection h with h
    rw [← h]
    exact unreadCount_eq_countP msgs conv.id actor

/-- Witness for C1 at a concrete store: one unread message addressed to the
actor in the conversation gives unread count 1. -/
theorem unread_count_matches_message_store_witness :
    buildEntry (okFetch []) [⟨"m1", "c1", "u2", "u1", "hi", false, 0⟩] "u1"
        ⟨"c1", ["u1", "u2"], "", 0⟩
      = Except.ok ⟨"c1", ["u1", "u2"], "", 0, "u2", "Unknown", "", 1⟩
    ∧ (⟨"c1", ["u1", "u2"], "", 0, "u2", "Unknown", "", 1⟩ : InboxEntry).unreadCount
        = List.countP (fun m : Message =>
            decide (m.conversationId = "c1" ∧ m.receiverId = "u1" ∧ m.read = false))
            [⟨"m1", "c1", "u2", "u1", "hi", false, 0⟩] :=
  ⟨by rfl,
   unread_count_matches_message_store [] [⟨"m1", "c1", "u2", "u1", "hi", false, 0⟩]
     "u1" ⟨"c1", ["u1", "u2"], "", 0⟩ ⟨"c1", ["u1", "u2"], "", 0, "u2", "Unknown", "", 1⟩
     (by rfl)⟩

/-- Claim C8: the inbox search filter is a pure function of the resolved
entries and the search string — an entry is retained exactly when the other
participant's lowercased display name contains the lowercased search string
as a contiguous substring — and the filtered list is a sublist of the input
(the underlying entries are not altered, and no store is consulted: the
function takes none). -/
theorem search_filter_retains_substring_matches (entries : List InboxEntry) (s : String) :
    (∀ c, c ∈ filteredConversations entries s ↔
        c ∈ entries ∧
          ∃ l r, (toLowerStr c.otherUserName).data = l ++ ((toLowerStr s).data ++ r))
    ∧ (filteredConversations entries s).Sublist entries := by
  constructor
  · intro c
    rw [filteredConversations, List.mem_filter, matchesSearch, includesStr,
      containsSub_iff]
  · exact List.filter_sublist entries

lemma applyMarkReads_mono : ∀ (ops : List String) (store : List Message) (m : Message),
    m ∈ store → m.read = true →
    ∃ m' ∈ applyMarkReads store ops, m'.id = m.id ∧ m'.read = true := by
  intro ops
  induction ops with
  | nil =>
    intro store m hm hr
    exact ⟨m, hm, rfl, hr⟩
  | cons o rest ih =>
    intro store m hm hr
    have hmem : (if m.id == o then { m with read := true } else m) ∈ setRead store o :=
      List.mem_map_of_mem _ hm
    have hread : (if m.id == o then { m with read := true } else m).read = true := by
      by_cases h : (m.id == o) = true
      · simp [h]
      · simp only [h, Bool.false_eq_true, if_false]; exact hr
    have hid : (if m.id == o then { m with read := true } else m).id = m.id := by
      by_cases h : (m.id == o) = true
      · simp [h]
      · simp [h]
    obtain ⟨m', hm', hid', hr'⟩ := ih (setRead store o) _ hmem hread
    exact ⟨m', hm', by rw [hid', hid], hr'⟩

lemma applyMarkReads_sets : ∀ (ops : List String) (store : List Message) (m : Message),
    m ∈ store → m.id ∈ ops →
    ∃ m' ∈ applyMarkReads store ops, m'.id = m.id ∧ m'.read = true := by
  intro ops
  induction ops with
  | nil =>
    intro store m _ hin
    exact absurd hin (List.not_mem_nil m.id)
  | cons o rest ih =>
    intro store m hm hin
    have hmem : (if m.id == o then { m with read := true } else m) ∈ setRead store o :=
      List.mem_map_of_mem _ hm
    by_cases ho : m.id = o
    · have hrd : (if m.id == o then { m with read := true } else m).read = true := by
        simp [ho]
      obtain ⟨m', hm', hid', hr'⟩ :=
        applyMarkReads_mono rest (setRead store o) _ hmem hrd
      refine ⟨m', hm', ?_, hr'⟩
      rw [hid']
      simp [ho]
    · have hrest : m.id ∈ rest := by
        rcases List.mem_cons.mp hin with h | h
        · exact absurd h ho
        · exact h
      have heq : (if m.id == o then { m with read := true } else m) = m := by
        simp [ho]
      rw [heq] at hmem
      exact ih (setRead store o) m hmem hrest

/-- Claim C2: processing a messages snapshot as actor A issues a read-marking
write for every snapshot message addressed to A that is unread, and applying
the issued writes leaves every such message marked read; every issued write
targets such a message (so writes are only for the observing actor's received
messages, and only ever set `read` to true); and applying any sequence of
read-marking writes never turns a read message unread. -/
theorem read_marking_sound (actor : String) (snapshot : List Message) :
    (∀ m ∈ snapshot, m.receiverId = actor → m.read = false →
        m.id ∈ markReadOps actor snapshot)
    ∧ (∀ (store : List Message) (m : Message), m ∈ snapshot → m ∈ store →
        m.receiverId = actor → m.read = false →
        ∃ m' ∈ applyMarkReads store (markReadOps actor snapshot),
          m'.id = m.id ∧ m'.read = true)
    ∧ (∀ mid ∈ markReadOps actor snapshot,
        ∃ m ∈ snapshot, m.id = mid ∧ m.receiverId = actor ∧ m.read = false)
    ∧ (∀ (store : List Message) (ops : List String) (m : Message),
        m ∈ store → m.read = true →
        ∃ m' ∈ applyMarkReads store ops, m'.id = m.id ∧ m'.read = true) := by
  have hissue : ∀ m ∈ snapshot, m.receiverId = actor → m.read = false →
      m.id ∈ markReadOps actor snapshot := by
    intro m hm hrecv hread
    rw [markReadOps]
    apply List.mem_map_of_mem
    rw [unreadMessages, List.mem_filter]
    exact ⟨hm, by simp [hrecv, hread]⟩
  refine ⟨hissue, ?_, ?_, ?_⟩
  · intro store m hms hmst hrecv hread
    exact applyMarkReads_sets (markReadOps actor snapshot) store m hmst
      (hissue m hms hrecv hread)
  · intro mid hmid
    rw [markReadOps] at hmid
    obtain ⟨m, hm, hid⟩ := List.mem_map.mp hmid
    rw [unreadMessages, List.mem_filter] at hm
    obtain ⟨hmem, hpred⟩ := hm
    simp only [Bool.and_eq_true, beq_iff_eq, Bool.not_eq_true'] at hpred
    exact ⟨m, hmem, hid, hpred.1, hpred.2⟩
  · intro store ops m hm hr
    exact applyMarkReads_mono ops store m hm hr

/-- Witness for C2 at a concrete snapshot: the single unread message addressed
to the actor is targeted by a read-marking write. -/
theorem read_marking_sound_witness :
    "m1" ∈ markReadOps "u1" [⟨"m1", "c1", "u2", "u1", "hi", false, 0⟩] :=
  (read_marking_sound "u1" [⟨"m1", "c1", "u2", "u1", "hi", false, 0⟩]).1
    ⟨"m1", "c1", "u2", "u1", "hi", false, 0⟩ (List.mem_singleton.mpr rfl) rfl rfl

/-- Claim C7: a snapshot in which every message addressed to the actor is
already read produces zero read-marking writes, and applying that empty write
sequence leaves the message store unchanged — re-opening a fully-read thread
is idempotent on the store. -/
theorem fully_read_thread_idempotent (actor : String) (snapshot store : List Message)
    (h : ∀ m ∈ snapshot, m.receiverId = actor → m.read = true) :
    markReadOps actor snapshot = []
    ∧ applyMarkReads store (markReadOps actor snapshot) = store := by
  have h1 : unreadMessages actor snapshot = [] := by
    rw [unreadMessages]
    apply List.filter_eq_nil_iff.mpr
    intro m hm
    by_cases hrecv : m.receiverId = actor
    · have := h m hm hrecv
      simp [this]
    · simp [hrecv]
  have h2 : markReadOps actor snapshot = [] := by
    rw [markReadOps, h1]; rfl
  exact ⟨h2, by rw [h2]; rfl⟩

/-- Witness for C7: a fully-read snapshot yields no writes and an unchanged
store. -/
theorem fully_read_thread_idempotent_witness :
    markReadOps "u1" [⟨"m1", "c1", "u2", "u1", "hi", true, 0⟩] = []
    ∧ applyMarkReads [⟨"m1", "c1", "u2", "u1", "hi", true, 0⟩]
        (markReadOps "u1" [⟨"m1", "c1", "u2", "u1", "hi", true, 0⟩])
        = [⟨"m1", "c1", "u2", "u1", "hi", true, 0⟩] :=
  fully_read_thread_idempotent "u1" [⟨"m1", "c1", "u2", "u1", "hi", true, 0⟩]
    [⟨"m1", "c1", "u2", "u1", "hi", true, 0⟩]
    (by intro m hm _; rw [List.mem_singleton.mp hm])

/-- Claim C5: a successful send with non-empty trimmed text issues exactly the
message append (with `read = false`; `createdAt` is the server timestamp
applied on execution) followed by the conversation summary upsert; the append
touches only the message store; the merge upsert touches only the conversation
store, preserves id and participants of every existing conversation, leaves
conversations with a different id entirely unchanged, and creates the
conversation when absent. -/
theorem send_appends_then_upserts (newMessage actor : String) (ou : OtherUser)
    (cid : String) (h : trimStr newMessage ≠ "") :
    handleSendMessage newMessage actor (some ou) cid
      = [WriteOp.appendMessage cid actor ou.id (trimStr newMessage) false,
         WriteOp.upsertConversation cid (trimStr newMessage)]
    ∧ (∀ (st : Stores) (fid : String) (now : Nat),
        (applyWrite fid now st
            (WriteOp.appendMessage cid actor ou.id (trimStr newMessage) false)).messages
          = st.messages ++ [⟨fid, cid, actor, ou.id, trimStr newMessage, false, now⟩]
        ∧ (applyWrite fid now st
            (WriteOp.appendMessage cid actor ou.id (trimStr newMessage) false)).conversations
          = st.conversations)
    ∧ (∀ (st : Stores) (fid : String) (now : Nat),
        (applyWrite fid now st
            (WriteOp.upsertConversation cid (trimStr newMessage))).messages
          = st.messages
        ∧ (∀ c ∈ st.conversations,
            ∃ c' ∈ (applyWrite fid now st
                (WriteOp.upsertConversation cid (trimStr newMessage))).conversations,
              c'.id = c.id ∧ c'.participants = c.participants
              ∧ (c.id ≠ cid → c' = c))
        ∧ (st.conversations.find? (fun c => c.id == cid) = none →
            ∃ c' ∈ (applyWrite fid now st
                (WriteOp.upsertConversation cid (trimStr newMessage))).conversations,
              c'.id = cid ∧ c'.lastMessage = trimStr newMessage
              ∧ c'.lastMessageTime = now)) := by
  refine ⟨?_, ?_, ?_⟩
  · rw [handleSendMessage.eq_def, if_neg h]
  · intro st fid now
    exact ⟨rfl, rfl⟩
  · intro st fid now
    refine ⟨?_, ?_, ?_⟩
    · rw [applyWrite]
    · intro c hc
      rw [applyWrite]
      cases hfind : st.conversations.find? (fun c => c.id == cid) with
      | some c0 =>
        simp only
        refine ⟨if c.id == cid then { c with lastMessage := trimStr newMessage, lastMessageTime := now } else c, List.mem_map_of_mem _ hc, ?_, ?_, ?_⟩
        · by_cases hid : (c.id == cid) = true
          · simp [hid]
          · simp [hid]
        · by_cases hid : (c.id == cid) = true
          · simp [hid]
          · simp [hid]
        · intro hne
          rw [if_neg (by simpa using hne)]
      | none =>
        simp only
        exact ⟨c, List.mem_append_left _ hc, rfl, rfl, fun _ => rfl⟩
    · intro hfind
      rw [applyWrite, hfind]
      simp only
      exact ⟨⟨cid, [], trimStr newMessage, now⟩,
        List.mem_append_right _ (List.mem_singleton.mpr rfl), rfl, rfl, rfl⟩

/-- Witness for C5 at a concrete draft, sender and receiver: the issued write
sequence is the append followed by the upsert. -/
theorem send_appends_then_upserts_witness :
    trimStr " hi " ≠ ""
    ∧ handleSendMessage " hi " "u1" (some ⟨"u2", "bob", ""⟩) "c1"
        = [WriteOp.appendMessage "c1" "u1" "u2" (trimStr " hi ") false,
           WriteOp.upsertConversation "c1" (trimStr " hi ")] :=
  ⟨by decide, (send_appends_then_upserts " hi " "u1" ⟨"u2", "bob", ""⟩ "c1" (by decide)).1⟩

/-- Claim C6: a send attempt whose text trims to empty issues no backend write
at all, and the stores are unchanged. -/
theorem empty_draft_sends_nothing (newMessage actor : String) (ou : Option OtherUser)
    (cid : String) (h : trimStr newMessage = "") :
    handleSendMessage newMessage actor ou cid = []
    ∧ ∀ (fid : String) (now : Nat) (st : Stores),
        applyWrites fid now st (handleSendMessage newMessage actor ou cid) = st := by
  have h0 : handleSendMessage newMessage actor ou cid = [] := by
    rw [handleSendMessage.eq_def, if_pos h]
  exact ⟨h0, fun fid now st => by rw [h0]; rfl⟩

/-- Witness for C6: a whitespace-only draft issues no write and leaves a
concrete store unchanged. -/
theorem empty_draft_sends_nothing_witness :
    trimStr "   " = ""
    ∧ handleSendMessage "   " "u1" (some ⟨"u2", "bob", ""⟩) "c1" = []
    ∧ applyWrites "f1" 7 ⟨[], [⟨"c1", ["u1", "u2"], "old", 1⟩]⟩
        (handleSendMessage "   " "u1" (some ⟨"u2", "bob", ""⟩) "c1")
        = ⟨[], [⟨"c1", ["u1", "u2"], "old", 1⟩]⟩ :=
  ⟨by decide,
   (empty_draft_sends_nothing "   " "u1" (some ⟨"u2", "bob", ""⟩) "c1" (by decide)).1,
   (empty_draft_sends_nothing "   " "u1" (some ⟨"u2", "bob", ""⟩) "c1" (by decide)).2
     "f1" 7 ⟨[], [⟨"c1", ["u1", "u2"], "old", 1⟩]⟩⟩

/-- Claim C9: the draft is cleared only when both send writes resolve; if
either write rejects, the draft is exactly the composed text, so a failed
send never loses the message. When the draft does change, both writes
executed, in append-then-upsert order. -/
theorem failed_send_keeps_draft (newMessage actor : String) (ou : Option OtherUser)
    (cid : String) (ok1 ok2 : Bool) :
    ((ok1 = false ∨ ok2 = false) →
        (sendWithDraft newMessage actor ou cid ok1 ok2).1 = newMessage)
    ∧ ((sendWithDraft newMessage actor ou cid ok1 ok2).1 ≠ newMessage →
        ok1 = true ∧ ok2 = true
        ∧ ∃ o : OtherUser, ou = some o
            ∧ sendWithDraft newMessage actor ou cid ok1 ok2
              = ("", [WriteOp.appendMessage cid actor o.id (trimStr newMessage) false,
                      WriteOp.upsertConversation cid (trimStr newMessage)])) := by
  by_cases ht : trimStr newMessage = "" <;> cases ou <;> cases ok1 <;> cases ok2 <;>
    simp [sendWithDraft, ht]

/-- Witness for C9: with the second write rejecting, the draft is untouched. -/
theorem failed_send_keeps_draft_witness :
    (sendWithDraft "hi" "u1" (some ⟨"u2", "bob", ""⟩) "c1" true false).1 = "hi" :=
  (failed_send_keeps_draft "hi" "u1" (some ⟨"u2", "bob", ""⟩) "c1" true false).1
    (Or.inr rfl)

/-- Claim C10: under the two-participant precondition — some participant id
differs from the actor — the lookup `participants.find(id != actor)` yields
an identifier, that identifier is a participant different from the actor, and
it is the one the inbox enrichment and the thread loader feed to the profile
fetch. -/
theorem two_participant_lookup_total (actor : String) (conv : Conversation)
    (h : ∃ pid, pid ∈ conv.participants ∧ pid ≠ actor) :
    ∃ x, otherParticipant actor conv = some x ∧ x ∈ conv.participants ∧ x ≠ actor
      ∧ (∀ (users : List UserRecord) (msgs : List Message),
          buildEntry (okFetch users) msgs actor conv
            = Except.ok (mkEntry conv x (lookupUser users x) msgs actor))
      ∧ (∀ (convs : List Conversation) (users : List UserRecord) (convId : String),
          convs.find? (fun c => c.id == convId) = some conv →
          loadConversation convs users actor convId
            = ChatState.ready (chatOtherUser users x)) := by
  obtain ⟨pid, hmem, hne⟩ := h
  have hsome : (conv.participants.find? (fun id => id != actor)).isSome := by
    rw [List.find?_isSome]
    exact ⟨pid, hmem, by simpa [bne_iff_ne] using hne⟩
  obtain ⟨x, hx⟩ := Option.isSome_iff_exists.mp hsome
  have hop : otherParticipant actor conv = some x := hx
  have hxmem : x ∈ conv.participants := List.mem_of_find?_eq_some hx
  have hxne : x ≠ actor := by
    have := List.find?_some hx
    simpa [bne_iff_ne] using this
  refine ⟨x, hop, hxmem, hxne, ?_, ?_⟩
  · intro users msgs
    simp only [buildEntry, hop, okFetch]
  · intro convs users convId hfind
    simp only [loadConversation, hfind, hop]

/-- Witness for C10: in a two-participant conversation the other participant
is found and is the profile-fetch target. -/
theorem two_participant_lookup_total_witness :
    (∃ pid, pid ∈ (⟨"c1", ["u1", "u2"], "", 0⟩ : Conversation).participants ∧ pid ≠ "u1")
    ∧ ∃ x, otherParticipant "u1" ⟨"c1", ["u1", "u2"], "", 0⟩ = some x
        ∧ x ∈ (⟨"c1", ["u1", "u2"], "", 0⟩ : Conversation).participants ∧ x ≠ "u1"
        ∧ (∀ (users : List UserRecord) (msgs : List Message),
            buildEntry (okFetch users) msgs "u1" ⟨"c1", ["u1", "u2"], "", 0⟩
              = Except.ok (mkEntry ⟨"c1", ["u1", "u2"], "", 0⟩ x (lookupUser users x) msgs "u1"))
        ∧ (∀ (convs : List Conversation) (users : List UserRecord) (convId : String),
            convs.find? (fun c => c.id == convId) = some ⟨"c1", ["u1", "u2"], "", 0⟩ →
            loadConversation convs users "u1" convId
              = ChatState.ready (chatOtherUser users x)) :=
  ⟨⟨"u2", by simp, by decide⟩,
   two_participant_lookup_total "u1" ⟨"c1", ["u1", "u2"], "", 0⟩ ⟨"u2", by simp, by decide⟩⟩

/-- Counterexample to claim C4 as stated: with the conversation present but
the other participant's profile document absent, the thread loader reaches
Ready with no other user set at all — it does not expose a participant named
"Unknown" with an empty avatar. -/
theorem thread_missing_profile_counterexample :
    loadConversation [⟨"c1", ["u1", "u2"], "", 0⟩] [] "u1" "c1" = ChatState.ready none
    ∧ ChatState.ready none ≠ ChatState.ready (some ⟨"u2", "Unknown", ""⟩) :=
  ⟨rfl, by decide⟩

/-- Claim C4 (amended): opening an existing conversation always transitions
Loading → Ready, and only a missing conversation yields NotFound; but when
the other participant's profile document is absent, Ready is reached with the
other participant left unset (no "Unknown" placeholder) — the "Unknown"
display name appears only when the profile document exists with an empty
username. -/
theorem thread_ready_tolerates_missing_profile (convs : List Conversation)
    (users : List UserRecord) (actor convId : String) :
    (convs.find? (fun c => c.id == convId) = none →
        loadConversation convs users actor convId = ChatState.notFound)
    ∧ (∀ conv, convs.find? (fun c => c.id == convId) = some conv →
        (∃ ou, loadConversation convs users actor convId = ChatState.ready ou)
        ∧ (∀ x, otherParticipant actor conv = some x →
            lookupUser users x = none →
            loadConversation convs users actor convId = ChatState.ready none)
        ∧ (∀ x u, otherParticipant actor conv = some x →
            lookupUser users x = some u → u.username = "" →
            loadConversation convs users actor convId
              = ChatState.ready (some ⟨x, "Unknown", u.avatarUrl⟩))) := by
  constructor
  · intro hfind
    simp only [loadConversation, hfind]
  · intro conv hfind
    refine ⟨?_, ?_, ?_⟩
    · simp only [loadConversation, hfind]
      cases hop : otherParticipant actor conv with
      | none => exact ⟨none, rfl⟩
      | some x => exact ⟨chatOtherUser users x, rfl⟩
    · intro x hop hlk
      simp only [loadConversation, hfind, hop, chatOtherUser, hlk]
    · intro x u hop hlk hu
      simp only [loadConversation, hfind, hop, chatOtherUser, hlk, hu, if_pos]

/-- Witness for amended C4: conversation present, profile store empty — the
thread reaches Ready with no other user set. -/
theorem thread_ready_tolerates_missing_profile_witness :
    List.find? (fun c : Conversation => c.id == "c1") [⟨"c1", ["u1", "u2"], "", 0⟩]
      = some ⟨"c1", ["u1", "u2"], "", 0⟩
    ∧ otherParticipant "u1" ⟨"c1", ["u1", "u2"], "", 0⟩ = some "u2"
    ∧ lookupUser [] "u2" = none
    ∧ loadConversation [⟨"c1", ["u1", "u2"], "", 0⟩] [] "u1" "c1" = ChatState.ready none :=
  ⟨rfl, rfl, rfl,
   ((thread_ready_tolerates_missing_profile [⟨"c1", ["u1", "u2"], "", 0⟩] [] "u1" "c1").2
     ⟨"c1", ["u1", "u2"], "", 0⟩ rfl).2.1 "u2" rfl rfl⟩

lemma processSnapshot_error_of_mem (fetch : String → Except String (Option UserRecord))
    (msgs : List Message) (actor : String) :
    ∀ (convs : List Conversation) (conv : Conversation) (err : String),
      conv ∈ convs → buildEntry fetch msgs actor conv = Except.error err →
      ∃ err', processSnapshot fetch msgs actor convs = Except.error err' := by
  intro convs
  induction convs with
  | nil =>
    intro conv err hmem _
    exact absurd hmem (List.not_mem_nil conv)
  | cons c cs ih =>
    intro conv err hmem hbuild
    cases hb : buildEntry fetch msgs actor c with
    | error e =>
      exact ⟨e, by simp only [processSnapshot, hb]⟩
    | ok entry =>
      rcases List.mem_cons.mp hmem with rfl | hmem'
      · rw [hb] at hbuild; cases hbuild
      · obtain ⟨e', he'⟩ := ih conv err hmem' hbuild
        exact ⟨e', by simp only [processSnapshot, hb, he']⟩

lemma processSnapshot_ok_of_all_some (users : List UserRecord)
    (msgs : List Message) (actor : String) :
    ∀ convs : List Conversation,
      (∀ c ∈ convs, (otherParticipant actor c).isSome = true) →
      ∃ l, processSnapshot (okFetch users) msgs actor convs = Except.ok l
        ∧ l.length = convs.length := by
  intro convs
  induction convs with
  | nil => exact fun _ => ⟨[], rfl, rfl⟩
  | cons c cs ih =>
    intro hall
    obtain ⟨x, hx⟩ := Option.isSome_iff_exists.mp (hall c (List.mem_cons_self c cs))
    obtain ⟨l, hl, hlen⟩ := ih (fun d hd => hall d (List.mem_cons_of_mem c hd))
    refine ⟨mkEntry c x (lookupUser users x) msgs actor :: l, ?_, by simp [hlen]⟩
    simp only [processSnapshot, buildEntry, hx, okFetch, hl]

/-- Counterexample to claim C3 as stated: with two conversations in the
snapshot and the second one's profile lookup rejecting, the snapshot
processing rejects as a whole and emits no list — the first (sibling)
conversation's entry, which resolves fine on its own, is not delivered. -/
theorem entry_failure_blanks_list_counterexample :
    processSnapshot badFetch [] "u1"
        [⟨"c1", ["u1", "u2"], "hi", 5⟩, ⟨"c2", ["u1", "u3"], "yo", 3⟩]
      = Except.error "unavailable"
    ∧ processSnapshot badFetch [] "u1" [⟨"c1", ["u1", "u2"], "hi", 5⟩]
      = Except.ok [⟨"c1", ["u1", "u2"], "hi", 5, "u2", "bob", "", 0⟩] :=
  ⟨rfl, rfl⟩

/-- Claim C3 (amended): a rejecting per-entry enrichment rejects the whole
`Promise.all` join, so no inbox list is emitted for that snapshot and sibling
entries are lost with it (the previously rendered list simply stays on
screen). Only an absent profile record — a lookup that succeeds with no data —
degrades the affected entry to "Unknown"/empty avatar; and when no per-entry
lookup rejects, the emitted list has one entry per conversation. -/
theorem entry_failure_rejects_whole_snapshot :
    (∀ (fetch : String → Except String (Option UserRecord)) (msgs : List Message)
        (actor : String) (convs : List Conversation) (conv : Conversation) (err : String),
        conv ∈ convs → buildEntry fetch msgs actor conv = Except.error err →
        ∃ err', processSnapshot fetch msgs actor convs = Except.error err')
    ∧ (∀ (users : List UserRecord) (msgs : List Message) (actor : String)
        (conv : Conversation) (x : String),
        otherParticipant actor conv = some x → lookupUser users x = none →
        buildEntry (okFetch users) msgs actor conv
          = Except.ok (mkEntry conv x none msgs actor)
        ∧ (mkEntry conv x none msgs actor).otherUserName = "Unknown"
        ∧ (mkEntry conv x none msgs actor).otherUserAvatar = "")
    ∧ (∀ (users : List UserRecord) (msgs : List Message) (actor : String)
        (convs : List Conversation),
        (∀ c ∈ convs, (otherParticipant actor c).isSome = true) →
        ∃ l, processSnapshot (okFetch users) msgs actor convs = Except.ok l
          ∧ l.length = convs.length) := by
  refine ⟨?_, ?_, ?_⟩
  · intro fetch msgs actor convs conv err hmem hbuild
    exact processSnapshot_error_of_mem fetch msgs actor convs conv err hmem hbuild
  · intro users msgs actor conv x hop hlk
    refine ⟨?_, ?_, ?_⟩
    · simp only [buildEntry, hop, okFetch, hlk]
    · simp only [mkEntry]
    · simp only [mkEntry]
  · intro users msgs actor convs hall
    exact processSnapshot_ok_of_all_some users msgs actor convs hall

/-- Witness for amended C3: the failing conversation is in the snapshot, its
enrichment rejects, and the whole join rejects. -/
theorem entry_failure_rejects_whole_snapshot_witness :
    (⟨"c2", ["u1", "u3"], "yo", 3⟩ : Conversation)
        ∈ [(⟨"c1", ["u1", "u2"], "hi", 5⟩ : Conversation), ⟨"c2", ["u1", "u3"], "yo", 3⟩]
    ∧ buildEntry badFetch [] "u1" ⟨"c2", ["u1", "u3"], "yo", 3⟩
        = Except.error "unavailable"
    ∧ ∃ err', processSnapshot badFetch [] "u1"
        [⟨"c1", ["u1", "u2"], "hi", 5⟩, ⟨"c2", ["u1", "u3"], "yo", 3⟩]
        = Except.error err' :=
  ⟨List.mem_cons_of_mem _ (List.mem_singleton.mpr rfl), rfl,
   entry_failure_rejects_whole_snapshot.1 badFetch [] "u1"
     [⟨"c1", ["u1", "u2"], "hi", 5⟩, ⟨"c2", ["u1", "u3"], "yo", 3⟩]
     ⟨"c2", ["u1", "u3"], "yo", 3⟩ "unavailable"
     (List.mem_cons_of_mem _ (List.mem_singleton.mpr rfl)) rfl⟩
